import Mathlib

/-!
Verification of the xooer_geo audit pipeline specification against the
repository's code.  Pure fragments of the TypeScript frontend are embedded
as Lean functions over `String`, `Nat`, `List` and `ℚ` (JavaScript numbers
are IEEE doubles, a subset of the rationals).  The backend Geo Scorer and
the audit state machine live in `src/scorers/geo_scorer.py` and friends,
which are not part of the audited sources; those definitions are modelled
from the specification and are marked as such in their doc comments.
-/

/-! ## Data model (from `frontend/types/api.ts` and spec section 3) -/

/-- Audit lifecycle status, from `AuditResponse.status` in
`frontend/types/api.ts`: `'pending' | 'running' | 'completed' | 'failed'`. -/
inductive AuditStatus where
  | pending
  | running
  | completed
  | failed
deriving DecidableEq, Repr

/-- Modelled from the spec: one structured fact record distilled from a
probe response (spec section 3, `ProbeResult`).  The producing Mention
Extractor is backend code absent from the audited sources; the fields kept
here are the ones the Geo Scorer consumes. -/
structure ProbeResult where
  keyword : String
  model : String
  has_target_brand : Bool
  target_brand_ranking : Option Nat
  official_citations_count : Nat
  authoritative_citations_count : Nat
  checkable_claims : Nat
  hallucination_count : Nat
deriving DecidableEq, Repr

/-- Score breakdown, from `ScoreBreakdown` in `frontend/types/api.ts`. -/
structure ScoreBreakdown where
  som_score : ℚ
  som_percentage : ℚ
  citation_score : ℚ
  official_citations : Nat
  authoritative_citations : Nat
  ranking_score : ℚ
  average_ranking : Option ℚ
  top3_count : Nat
  accuracy_score : ℚ
  accuracy_percentage : ℚ
  hallucination_count : Nat
deriving DecidableEq, Repr

/-- Dimension weights, from `GeoScore.weights` in `frontend/types/api.ts`. -/
structure ScoreWeights where
  som : ℚ
  citation : ℚ
  ranking : ℚ
  accuracy : ℚ
deriving DecidableEq, Repr

/-- Confidence interval, from `GeoScore.confidence_interval` in
`frontend/types/api.ts` (spec section 3 makes it a required field of a
computed GeoScore). -/
structure ConfidenceInterval where
  lower : ℚ
  upper : ℚ
deriving DecidableEq, Repr

/-- GeoScore, from `GeoScore` in `frontend/types/api.ts` together with the
explicit `insufficient_data` reason flag required by spec sections 4.3 and 7
(the frontend type carries it inside `metadata`).  The `timestamp` field is
omitted: the scoring contract `score(results, weights)` takes no clock. -/
structure GeoScore where
  overall_score : ℚ
  breakdown : ScoreBreakdown
  weights : ScoreWeights
  confidence_interval : ConfidenceInterval
  test_count : Nat
  models_tested : List String
  keywords_tested : List String
  reason : Option String
deriving DecidableEq, Repr

/-- Audit snapshot, from `AuditResponse` in `frontend/types/api.ts`.  The
optional `strategy` field is omitted (no audited code path inspected here
reads it); `geo_score` is the optional overall number and
`geo_score_detail` the optional full breakdown, exactly as in the source. -/
structure AuditResponse where
  audit_id : String
  brand_name : String
  target_brand : String
  keywords : List String
  status : AuditStatus
  geo_score : Option ℚ
  geo_score_detail : Option GeoScore
  started_at : String
  completed_at : Option String
  error : Option String
deriving DecidableEq, Repr

/-! ## Geo Scorer (modelled from the spec, section 4.3) -/

/-- Number of probe results in which the target brand is mentioned. -/
def mentionedCount (results : List ProbeResult) : Nat :=
  (results.filter (fun r => r.has_target_brand)).length

/-- Modelled from the spec: SOM sub-score,
`mentioned_count / total_results * 100` (spec section 4.3 step 2). -/
def somScore (results : List ProbeResult) : ℚ :=
  ((mentionedCount results : ℚ) / (results.length : ℚ)) * 100

/-- Total official citations across all probe results. -/
def totalOfficialCitations (results : List ProbeResult) : Nat :=
  (results.map (fun r => r.official_citations_count)).sum

/-- Total authoritative citations across all probe results. -/
def totalAuthoritativeCitations (results : List ProbeResult) : Nat :=
  (results.map (fun r => r.authoritative_citations_count)).sum

/-- Modelled from the spec: citation sub-score, a monotonic function of
(official, authoritative) citation counts normalized to [0,100], weighting
official citations more heavily, with zero citations yielding 0
(spec section 4.3 step 3). -/
def citationScore (results : List ProbeResult) : ℚ :=
  min 100 (10 * (totalOfficialCitations results : ℚ)
    + 5 * (totalAuthoritativeCitations results : ℚ))

/-- Modelled from the spec: per-result ranking credit.  A rank of 1
contributes the maximum (100), decaying with rank; an unranked mention
contributes a smaller flat credit (spec section 4.3 step 4). -/
def rankCredit (r : ProbeResult) : ℚ :=
  match r.target_brand_ranking with
  | some k => if k = 0 then 0 else min 100 (100 / (k : ℚ))
  | none => 30

/-- Modelled from the spec: ranking sub-score, the average ranking credit
over the results in which the brand was mentioned; no mentions at all
yields 0 (spec section 4.3 step 4). -/
def rankingScore (results : List ProbeResult) : ℚ :=
  let mentioned := results.filter (fun r => r.has_target_brand)
  if mentioned.length = 0 then 0
  else (mentioned.map rankCredit).sum / (mentioned.length : ℚ)

/-- Ranks observed among mentioned-and-ranked results. -/
def rankedList (results : List ProbeResult) : List Nat :=
  results.filterMap (fun r =>
    if r.has_target_brand then r.target_brand_ranking else none)

/-- Average observed rank, `none` when no result was ranked (feeds the
`average_ranking` breakdown field). -/
def averageRanking (results : List ProbeResult) : Option ℚ :=
  let l := rankedList results
  if l.length = 0 then none
  else some ((l.map (fun k => (k : ℚ))).sum / (l.length : ℚ))

/-- Total checkable ground-truth claims across all probe results. -/
def totalCheckableClaims (results : List ProbeResult) : Nat :=
  (results.map (fun r => r.checkable_claims)).sum

/-- Total hallucinated (contradicted) claims across all probe results. -/
def totalHallucinations (results : List ProbeResult) : Nat :=
  (results.map (fun r => r.hallucination_count)).sum

/-- Modelled from the spec: accuracy sub-score, `100 - penalty` where the
penalty grows with the ratio of contradicted claims to checkable claims;
with no ground truth supplied it defaults to a neutral 70, not zero
(spec section 4.3 step 5). -/
def accuracyScore (results : List ProbeResult) : ℚ :=
  if totalCheckableClaims results = 0 then 70
  else max 0 (100 - 100 * (totalHallucinations results : ℚ)
    / (totalCheckableClaims results : ℚ))

/-- Share of checked claims that were accurate, for the
`accuracy_percentage` breakdown field. -/
def accuracyPercentage (results : List ProbeResult) : ℚ :=
  if totalCheckableClaims results = 0 then 100
  else max 0 (100 * ((totalCheckableClaims results : ℚ)
    - (totalHallucinations results : ℚ)) / (totalCheckableClaims results : ℚ))

/-- Clamp a score into [0,100] (spec section 4.3 step 6 and its failure
semantics: numeric inconsistencies are clamped, never propagated). -/
def clampScore (x : ℚ) : ℚ :=
  max 0 (min 100 x)

/-- Default dimension weights from the scoring contract
`score(results, weights = {som:0.4, citation:0.3, ranking:0.2, accuracy:0.1})`
(spec section 4.3). -/
def defaultWeights : ScoreWeights where
  som := 4 / 10
  citation := 3 / 10
  ranking := 2 / 10
  accuracy := 1 / 10

/-- All-zero breakdown used by the zero-data guard. -/
def zeroBreakdown : ScoreBreakdown where
  som_score := 0
  som_percentage := 0
  citation_score := 0
  official_citations := 0
  authoritative_citations := 0
  ranking_score := 0
  average_ranking := none
  top3_count := 0
  accuracy_score := 0
  accuracy_percentage := 0
  hallucination_count := 0

/-- Breakdown assembled from a non-empty probe result set. -/
def buildBreakdown (results : List ProbeResult) : ScoreBreakdown where
  som_score := somScore results
  som_percentage := somScore results
  citation_score := citationScore results
  official_citations := totalOfficialCitations results
  authoritative_citations := totalAuthoritativeCitations results
  ranking_score := rankingScore results
  average_ranking := averageRanking results
  top3_count := (rankedList results).countP (fun k => decide (1 ≤ k ∧ k ≤ 3))
  accuracy_score := accuracyScore results
  accuracy_percentage := accuracyPercentage results
  hallucination_count := totalHallucinations results

/-- Weighted overall score, clamped to [0,100]
(spec section 4.3 step 6). -/
def overallScore (w : ScoreWeights) (b : ScoreBreakdown) : ℚ :=
  clampScore (w.som * b.som_score + w.citation * b.citation_score
    + w.ranking * b.ranking_score + w.accuracy * b.accuracy_score)

/-- Modelled from the spec: confidence-interval half width.  The exact
estimator is an open question of the spec (section 9); this development
uses the normal-approximation half width `100 / (2 * sqrt n)` discretized
with `Nat.sqrt`, which widens as the sample count shrinks. -/
def confidenceHalfWidth (n : Nat) : ℚ :=
  if n = 0 then 0 else 100 / (2 * (Nat.sqrt n : ℚ))

/-- Confidence interval around the overall score, clamped into [0,100]. -/
def confidenceIntervalFor (overall : ℚ) (n : Nat) : ConfidenceInterval where
  lower := max 0 (overall - confidenceHalfWidth n)
  upper := min 100 (overall + confidenceHalfWidth n)

/-- Modelled from the spec: the Geo Scorer's score function
(`GeoScorer.calculate_geo_score` in `src/scorers/geo_scorer.py`, absent
from the audited sources; algorithm from spec section 4.3).  The zero-data
guard returns the all-zero GeoScore with the `insufficient_data` reason
flag.  The function is total — it cannot raise. -/
def calculateGeoScore (results : List ProbeResult) (w : ScoreWeights) :
    GeoScore :=
  if results.isEmpty then
    { overall_score := 0
      breakdown := zeroBreakdown
      weights := w
      confidence_interval := { lower := 0, upper := 0 }
      test_count := 0
      models_tested := []
      keywords_tested := []
      reason := some "insufficient_data" }
  else
    { overall_score := overallScore w (buildBreakdown results)
      breakdown := buildBreakdown results
      weights := w
      confidence_interval :=
        confidenceIntervalFor (overallScore w (buildBreakdown results))
          results.length
      test_count := results.length
      models_tested := (results.map (fun r => r.model)).dedup
      keywords_tested := (results.map (fun r => r.keyword)).dedup
      reason := none }

/-! ## Audit state machine terminal transition (modelled from the spec) -/

/-- Modelled from the spec: outcome of one pipeline run (spec section 4.4,
`run(auditId)`).  The pipeline driver is backend code absent from the
audited sources: a run either produces a GeoScore, or fails fatally with a
captured error message. -/
inductive PipelineOutcome where
  | success (gs : GeoScore)
  | fatal (message : String)
deriving DecidableEq, Repr

/-- Modelled from the spec: the terminal transition of the audit state
machine (spec sections 4.4 and 7).  A successful run transitions the
record to `completed` carrying the GeoScore; a fatal failure transitions
it to `failed` carrying the error message; a record never holds both. -/
def finishAudit (a : AuditResponse) : PipelineOutcome → AuditResponse
  | .success gs =>
    { a with
        status := AuditStatus.completed
        geo_score := some gs.overall_score
        geo_score_detail := some gs
        error := none }
  | .fatal msg =>
    { a with
        status := AuditStatus.failed
        geo_score := none
        geo_score_detail := none
        error := some msg }

/-! ## Audit detail page rendering (`frontend/app/audits/[id]/page.tsx`) -/

/-- Which score block the audit detail page renders. -/
inductive ScoreSection where
  | overview (score : ℚ)
  | noScoreWarning
  | hidden
deriving DecidableEq, Repr

/-- Score-section branch of `AuditDetailPageContent`
(`frontend/app/audits/[id]/page.tsx` lines 318-358): a completed audit
with a present `geo_score` renders the score overview, a completed audit
without one renders the explicit no-score warning, any other status
renders neither. -/
def scoreSection (a : AuditResponse) : ScoreSection :=
  if a.status = AuditStatus.completed then
    match a.geo_score with
    | some s => ScoreSection.overview s
    | none => ScoreSection.noScoreWarning
  else ScoreSection.hidden

/-! ## Client polling (`frontend/app/audits/[id]/page.tsx` and the brand
report page in `src/unnamed/part_003`) -/

/-- Poll interval of the audit detail page, from
`setInterval(..., 7000)` in `frontend/app/audits/[id]/page.tsx`. -/
def auditDetailPollIntervalMs : Nat := 7000

/-- Poll interval of the brand report page, from
`setInterval(..., 3000)` in `src/unnamed/part_003`. -/
def brandReportPollIntervalMs : Nat := 3000

/-- Whether the audit detail page keeps polling, from
`data.status === 'running' || data.status === 'pending'` in its
`fetchAudit`. -/
def auditDetailShouldPoll (s : AuditStatus) : Bool :=
  decide (s = AuditStatus.running) || decide (s = AuditStatus.pending)

/-- Whether the brand report page keeps polling, from the status branches
of `fetchAudit` in `src/unnamed/part_003`: `completed` and `failed` clear
the interval, `running` and `pending` keep it. -/
def brandReportShouldPoll (s : AuditStatus) : Bool :=
  match s with
  | AuditStatus.completed => false
  | AuditStatus.running => true
  | AuditStatus.pending => true
  | AuditStatus.failed => false

/-! ## Audit list status filter (`frontend/app/audits/page.tsx`) -/

/-- Filter selector value, from
`type AuditStatus = 'pending' | 'running' | 'completed' | 'failed' | 'all'`
in `frontend/app/audits/page.tsx`. -/
inductive StatusFilterVal where
  | pending
  | running
  | completed
  | failed
  | all
deriving DecidableEq, Repr

/-- The filter value a given audit status compares equal to (the source
compares the two status strings directly; a status string never equals
`'all'`). -/
def statusToFilterVal : AuditStatus → StatusFilterVal
  | AuditStatus.pending => StatusFilterVal.pending
  | AuditStatus.running => StatusFilterVal.running
  | AuditStatus.completed => StatusFilterVal.completed
  | AuditStatus.failed => StatusFilterVal.failed

/-- Client-side status filter, from `filteredAudits` in
`frontend/app/audits/page.tsx`: the input list unchanged for `'all'`,
otherwise `audits.filter((audit) => audit.status === statusFilter)`. -/
def filteredAudits (audits : List AuditResponse) (statusFilter : StatusFilterVal) :
    List AuditResponse :=
  if statusFilter = StatusFilterVal.all then audits
  else audits.filter (fun a => statusToFilterVal a.status = statusFilter)

/-! ## Create-audit form (`src/unnamed/part_002`) -/

/-- Brand-name rule of `auditFormSchema`:
`z.string().min(1).max(100)` — accepted exactly when the length is
between 1 and 100. -/
def brandNameAccepted (s : String) : Bool :=
  decide (1 ≤ s.length) && decide (s.length ≤ 100)

/-- JavaScript `String.prototype.trim`, modelled over the character list:
whitespace is stripped from both ends. -/
def trimString (s : String) : String :=
  String.mk
    (((s.toList.dropWhile Char.isWhitespace).reverse.dropWhile
      Char.isWhitespace).reverse)

/-- JavaScript `String.prototype.split(',')`, modelled over the character
list: the empty string splits into `[""]`, exactly as in JavaScript. -/
def splitCharsOnComma : List Char → List (List Char)
  | [] => [[]]
  | c :: cs =>
    match splitCharsOnComma cs with
    | [] => if c = ',' then [[], []] else [[c]]
    | g :: gs => if c = ',' then [] :: g :: gs else (c :: g) :: gs

/-- String-level wrapper of `splitCharsOnComma`. -/
def splitOnComma (s : String) : List String :=
  (splitCharsOnComma s.toList).map String.mk

/-- The `keywordArray` computed by `onSubmit` in `src/unnamed/part_002`:
the comma-separated `keywords` field split, trimmed and stripped of
empty entries. -/
def submittedKeywordArray (keywords : String) : List String :=
  ((splitOnComma keywords).map trimString).filter (fun k => k.length > 0)

/-- Keyword list the form submits, from `onSubmit` in
`src/unnamed/part_002`: the processed keyword array when non-empty,
otherwise the trimmed brand name as the single keyword. -/
def submittedKeywords (keywords brand_name : String) : List String :=
  if (submittedKeywordArray keywords).length > 0 then
    submittedKeywordArray keywords
  else [trimString brand_name]

/-! ## Core-product-keyword tag input (`src/unnamed/part_002`) -/

/-- State of the tag input: the keyword list held in the form plus the
text currently typed in the input box. -/
structure TagInputState where
  keywords : List String
  input : String
deriving DecidableEq, Repr

/-- Keys distinguished by `handleCoreProductKeywordKeyDown`. -/
inductive TagKey where
  | enter
  | comma
  | backspace
  | other
deriving DecidableEq, Repr

/-- Events the tag input reacts to: a key press in the input box, a click
on a tag's remove button (`removeCoreProductKeyword`), or typing into the
box (`setCoreProductKeywordInput`). -/
inductive TagEvent where
  | key (k : TagKey)
  | remove (i : Nat)
  | setInput (s : String)
deriving DecidableEq, Repr

/-- Index-based removal, from
`coreProductKeywords.filter((_, i) => i !== index)` in
`removeCoreProductKeyword`. -/
def removeAtIndex (ks : List String) (i : Nat) : List String :=
  (ks.enum.filter (fun p => p.1 ≠ i)).map Prod.snd

/-- Key handler, from `handleCoreProductKeywordKeyDown`: Enter or comma
appends the trimmed input when it is non-empty, not already present and
the list holds fewer than 3 entries (and then clears the box); Backspace
on an empty box drops the last keyword; other keys change nothing. -/
def tagKeyDown (st : TagInputState) (k : TagKey) : TagInputState :=
  match k with
  | TagKey.enter | TagKey.comma =>
    let value := trimString st.input
    if value ≠ "" ∧ value ∉ st.keywords then
      if st.keywords.length < 3 then
        { keywords := st.keywords ++ [value], input := "" }
      else st
    else st
  | TagKey.backspace =>
    if st.input = "" ∧ st.keywords ≠ [] then
      { keywords := st.keywords.dropLast, input := st.input }
    else st
  | TagKey.other => st

/-- One step of the tag input. -/
def tagStep (st : TagInputState) : TagEvent → TagInputState
  | TagEvent.key k => tagKeyDown st k
  | TagEvent.remove i => { keywords := removeAtIndex st.keywords i, input := st.input }
  | TagEvent.setInput s => { keywords := st.keywords, input := s }

/-- Initial tag-input state, from the form's `core_product_keywords: []`
default and the empty input box. -/
def tagInit : TagInputState where
  keywords := []
  input := ""

/-- The state reached after a sequence of tag-input events. -/
def tagRun (events : List TagEvent) : TagInputState :=
  events.foldl tagStep tagInit

/-! ## API error extraction (`frontend/lib/api/types.ts`) -/

/-- Error payload, from `ErrorResponse` in `frontend/types/api.ts`
(`{error: string, detail?: string}`). -/
structure ErrorResponseData where
  err : String
  detail : Option String
deriving DecidableEq, Repr

/-- The `response` object of an Axios error: HTTP status plus the
(possibly missing) parsed error body. -/
structure AxiosResponseData where
  data : Option ErrorResponseData
  status : Nat
deriving DecidableEq, Repr

/-- A JavaScript value as `extractApiError` discriminates it: whether it
is an object with a `response` property, that property's value when
present, whether the value is an `Error` instance, and its `message`. -/
structure JsErrorValue where
  hasResponseField : Bool
  response : Option AxiosResponseData
  isErrorInstance : Bool
  message : String
deriving DecidableEq, Repr

/-- The `ApiError` record of `frontend/lib/api/types.ts`. -/
structure ApiError where
  message : String
  status : Option Nat
  detail : Option String
deriving DecidableEq, Repr

/-- JavaScript `a || b` on an optional string: the string when present and
non-empty (truthy), otherwise the default. -/
def jsStringOr (s : Option String) (dflt : String) : String :=
  match s with
  | some v => if v = "" then dflt else v
  | none => dflt

/-- Fallback branch of `extractApiError`: an `Error` instance yields
`error.message || '未知错误'`, anything else the plain unknown-error
record. -/
def extractApiErrorFallback (e : JsErrorValue) : ApiError :=
  if e.isErrorInstance then
    { message := jsStringOr (some e.message) "未知错误"
      status := none
      detail := none }
  else
    { message := "未知错误", status := none, detail := none }

/-- `extractApiError` from `frontend/lib/api/types.ts`: a value with a
`response` object yields `response.data?.error || '请求失败'` with the
HTTP status and optional detail; otherwise the `Error`/unknown fallback. -/
def extractApiError (e : JsErrorValue) : ApiError :=
  if e.hasResponseField then
    match e.response with
    | some response =>
      { message := jsStringOr (response.data.map (fun d => d.err)) "请求失败"
        status := some response.status
        detail := response.data.bind (fun d => d.detail) }
    | none => extractApiErrorFallback e
  else extractApiErrorFallback e

/-! ## GeoScoreOverview clamp (`frontend/components/scoring/ScoreBreakdown.tsx`) -/

/-- `normalizedScore` of `GeoScoreOverview`:
`Math.max(0, Math.min(100, score))`. -/
def normalizedScore (score : ℚ) : ℚ :=
  max 0 (min 100 score)

/-! ## Sample records used by witnesses -/

/-- A completed audit snapshot carrying an overall score. -/
def sampleCompletedAudit : AuditResponse where
  audit_id := "a1"
  brand_name := "Xooer"
  target_brand := "Xooer"
  keywords := ["geo"]
  status := AuditStatus.completed
  geo_score := some 50
  geo_score_detail := none
  started_at := "2025-01-01T00:00:00Z"
  completed_at := some "2025-01-01T00:05:00Z"
  error := none

/-- A completed audit snapshot with no score data. -/
def sampleCompletedNoScoreAudit : AuditResponse where
  audit_id := "a2"
  brand_name := "Xooer"
  target_brand := "Xooer"
  keywords := ["geo"]
  status := AuditStatus.completed
  geo_score := none
  geo_score_detail := none
  started_at := "2025-01-01T00:00:00Z"
  completed_at := some "2025-01-01T00:05:00Z"
  error := none

/-- A failed audit snapshot. -/
def sampleFailedAudit : AuditResponse where
  audit_id := "a3"
  brand_name := "Xooer"
  target_brand := "Xooer"
  keywords := ["geo"]
  status := AuditStatus.failed
  geo_score := none
  geo_score_detail := none
  started_at := "2025-01-01T00:00:00Z"
  completed_at := none
  error := some "pipeline timeout"

/-- A concrete GeoScore for exercising the terminal transition. -/
def sampleGeoScore : GeoScore where
  overall_score := 50
  breakdown := zeroBreakdown
  weights := defaultWeights
  confidence_interval := { lower := 25, upper := 75 }
  test_count := 4
  models_tested := ["gpt-4o"]
  keywords_tested := ["geo"]
  reason := none

/-! ## Helper lemmas -/

/-- JavaScript `a || b` with a non-empty default is non-empty. -/
theorem jsStringOr_ne (s : Option String) (d : String) (hd : d ≠ "") :
    jsStringOr s d ≠ "" := by
  cases s with
  | none => simpa [jsStringOr] using hd
  | some v =>
    by_cases hv : v = ""
    · simpa [jsStringOr, hv] using hd
    · simp [jsStringOr, hv]

/-- Clamping is the identity on values already in [0,100]. -/
theorem clampScore_eq_self {x : ℚ} (h0 : 0 ≤ x) (h1 : x ≤ 100) :
    clampScore x = x := by
  unfold clampScore
  rw [min_eq_right h1, max_eq_right h0]

/-- The SOM sub-score of a non-empty result set lies in [0,100]. -/
theorem somScore_bounds (results : List ProbeResult) (h : results ≠ []) :
    0 ≤ somScore results ∧ somScore results ≤ 100 := by
  have hn : 0 < results.length := List.length_pos.mpr h
  have hnq : (0 : ℚ) < (results.length : ℚ) := by exact_mod_cast hn
  have hc : (mentionedCount results : ℚ) ≤ (results.length : ℚ) := by
    exact_mod_cast List.length_filter_le _ results
  constructor
  · unfold somScore
    have h0 : (0 : ℚ) ≤ (mentionedCount results : ℚ) := by positivity
    exact mul_nonneg (div_nonneg h0 hnq.le) (by norm_num)
  · unfold somScore
    have hr : (mentionedCount results : ℚ) / (results.length : ℚ) ≤ 1 :=
      (div_le_one hnq).mpr hc
    calc (mentionedCount results : ℚ) / (results.length : ℚ) * 100
        ≤ 1 * 100 := by
          exact mul_le_mul_of_nonneg_right hr (by norm_num)
      _ = 100 := by norm_num

/-- The citation sub-score lies in [0,100]. -/
theorem citationScore_bounds (results : List ProbeResult) :
    0 ≤ citationScore results ∧ citationScore results ≤ 100 := by
  unfold citationScore
  constructor
  · apply le_min (by norm_num)
    positivity
  · exact min_le_left _ _

/-- Each per-result ranking credit lies in [0,100]. -/
theorem rankCredit_bounds (r : ProbeResult) :
    0 ≤ rankCredit r ∧ rankCredit r ≤ 100 := by
  unfold rankCredit
  cases r.target_brand_ranking with
  | none => norm_num
  | some k =>
    by_cases hk : k = 0
    · simp [hk]
    · simp only [hk, if_false]
      constructor
      · apply le_min (by norm_num)
        positivity
      · exact min_le_left _ _

/-- The ranking sub-score lies in [0,100]. -/
theorem rankingScore_bounds (results : List ProbeResult) :
    0 ≤ rankingScore results ∧ rankingScore results ≤ 100 := by
  unfold rankingScore
  simp only []
  by_cases hm : (results.filter (fun r => r.has_target_brand)).length = 0
  · simp [hm]
  · simp only [hm, if_false]
    set m := results.filter (fun r => r.has_target_brand) with hmdef
    have hml : 0 < (m.length : ℚ) := by
      have : 0 < m.length := Nat.pos_of_ne_zero hm
      exact_mod_cast this
    have hnonneg : ∀ x ∈ m.map rankCredit, (0 : ℚ) ≤ x := by
      intro x hx
      obtain ⟨r, _, rfl⟩ := List.mem_map.mp hx
      exact (rankCredit_bounds r).1
    have hle : ∀ x ∈ m.map rankCredit, x ≤ (100 : ℚ) := by
      intro x hx
      obtain ⟨r, _, rfl⟩ := List.mem_map.mp hx
      exact (rankCredit_bounds r).2
    have hsum0 : (0 : ℚ) ≤ (m.map rankCredit).sum := List.sum_nonneg hnonneg
    have hsum : (m.map rankCredit).sum ≤ ((m.map rankCredit).length : ℚ) * 100 := by
      have := List.sum_le_card_nsmul (m.map rankCredit) 100 hle
      simpa [nsmul_eq_mul] using this
    rw [List.length_map] at hsum
    constructor
    · exact div_nonneg hsum0 hml.le
    · rw [div_le_iff₀ hml]
      calc (m.map rankCredit).sum ≤ (m.length : ℚ) * 100 := hsum
        _ = 100 * (m.length : ℚ) := by ring

/-- The accuracy sub-score lies in [0,100]. -/
theorem accuracyScore_bounds (results : List ProbeResult) :
    0 ≤ accuracyScore results ∧ accuracyScore results ≤ 100 := by
  unfold accuracyScore
  by_cases hc : totalCheckableClaims results = 0
  · norm_num [hc]
  · simp only [hc, if_false]
    constructor
    · exact le_max_left _ _
    · apply max_le (by norm_num)
      have hpen : (0 : ℚ) ≤ 100 * (totalHallucinations results : ℚ)
          / (totalCheckableClaims results : ℚ) := by positivity
      linarith

/-- Index-based removal produces a sublist of the original keyword list. -/
theorem removeAtIndex_sublist (ks : List String) (i : Nat) :
    List.Sublist (removeAtIndex ks i) ks := by
  unfold removeAtIndex
  have h1 : List.Sublist (ks.enum.filter (fun p => p.1 ≠ i)) ks.enum :=
    List.filter_sublist _
  have h2 := h1.map Prod.snd
  simpa [List.enum_map_snd] using h2

/-- One tag-input step preserves the at-most-3, no-duplicates invariant. -/
theorem tagStep_preserves (st : TagInputState) (e : TagEvent)
    (h : st.keywords.length ≤ 3 ∧ st.keywords.Nodup) :
    (tagStep st e).keywords.length ≤ 3 ∧ (tagStep st e).keywords.Nodup := by
  have hlen := h.1
  cases e with
  | key k =>
    cases k with
    | enter =>
      simp only [tagStep, tagKeyDown]
      split_ifs with h1 h2
      · show (st.keywords ++ [trimString st.input]).length ≤ 3 ∧
          (st.keywords ++ [trimString st.input]).Nodup
        constructor
        · simp only [List.length_append, List.length_singleton]
          omega
        · simp [List.nodup_append, h.2, h1.2]
      · exact h
      · exact h
    | comma =>
      simp only [tagStep, tagKeyDown]
      split_ifs with h1 h2
      · show (st.keywords ++ [trimString st.input]).length ≤ 3 ∧
          (st.keywords ++ [trimString st.input]).Nodup
        constructor
        · simp only [List.length_append, List.length_singleton]
          omega
        · simp [List.nodup_append, h.2, h1.2]
      · exact h
      · exact h
    | backspace =>
      simp only [tagStep, tagKeyDown]
      split_ifs with h1
      · show st.keywords.dropLast.length ≤ 3 ∧ st.keywords.dropLast.Nodup
        constructor
        · rw [List.length_dropLast]
          omega
        · exact List.Nodup.sublist (List.dropLast_sublist _) h.2
      · exact h
    | other =>
      simpa [tagStep, tagKeyDown] using h
  | remove i =>
    simp only [tagStep]
    constructor
    · exact le_trans (removeAtIndex_sublist st.keywords i).length_le h.1
    · exact List.Nodup.sublist (removeAtIndex_sublist st.keywords i) h.2
  | setInput s =>
    simpa [tagStep] using h

/-- Folding tag-input steps from a state satisfying the invariant keeps it. -/
theorem tagRun_fold_preserves (events : List TagEvent) :
    ∀ st : TagInputState,
      st.keywords.length ≤ 3 ∧ st.keywords.Nodup →
      (events.foldl tagStep st).keywords.length ≤ 3 ∧
        (events.foldl tagStep st).keywords.Nodup := by
  induction events with
  | nil => intro st h; simpa using h
  | cons e rest ih =>
    intro st h
    simpa [List.foldl_cons] using ih (tagStep st e) (tagStep_preserves st e h)

/-! ## Claim theorems -/

/-- C1: for the empty input list the Geo Scorer returns a GeoScore whose
overall score is 0, whose every breakdown field is zero, whose confidence
interval is {0,0}, whose test count is 0 and which carries the explicit
`insufficient_data` reason flag; `calculateGeoScore` is a total function,
so this input can never raise. -/
theorem calculateGeoScore_empty_insufficient_data (w : ScoreWeights) :
    (calculateGeoScore [] w).overall_score = 0 ∧
    (calculateGeoScore [] w).breakdown.som_score = 0 ∧
    (calculateGeoScore [] w).breakdown.som_percentage = 0 ∧
    (calculateGeoScore [] w).breakdown.citation_score = 0 ∧
    (calculateGeoScore [] w).breakdown.official_citations = 0 ∧
    (calculateGeoScore [] w).breakdown.authoritative_citations = 0 ∧
    (calculateGeoScore [] w).breakdown.ranking_score = 0 ∧
    (calculateGeoScore [] w).breakdown.average_ranking = none ∧
    (calculateGeoScore [] w).breakdown.top3_count = 0 ∧
    (calculateGeoScore [] w).breakdown.accuracy_score = 0 ∧
    (calculateGeoScore [] w).breakdown.accuracy_percentage = 0 ∧
    (calculateGeoScore [] w).breakdown.hallucination_count = 0 ∧
    (calculateGeoScore [] w).confidence_interval.lower = 0 ∧
    (calculateGeoScore [] w).confidence_interval.upper = 0 ∧
    (calculateGeoScore [] w).test_count = 0 ∧
    (calculateGeoScore [] w).reason = some "insufficient_data" :=
  ⟨rfl, rfl, rfl, rfl, rfl, rfl, rfl, rfl, rfl, rfl, rfl, rfl, rfl, rfl,
    rfl, rfl⟩

/-- C2: with the default weights {0.4, 0.3, 0.2, 0.1} the overall score of
every produced GeoScore equals the weighted sum of its four sub-scores
(exactly, over ℚ), and the default weights sum to 1. -/
theorem calculateGeoScore_default_weighted_sum (results : List ProbeResult) :
    (calculateGeoScore results defaultWeights).overall_score =
      (4 / 10) * (calculateGeoScore results defaultWeights).breakdown.som_score
      + (3 / 10) * (calculateGeoScore results defaultWeights).breakdown.citation_score
      + (2 / 10) * (calculateGeoScore results defaultWeights).breakdown.ranking_score
      + (1 / 10) * (calculateGeoScore results defaultWeights).breakdown.accuracy_score
    ∧ defaultWeights.som + defaultWeights.citation + defaultWeights.ranking
      + defaultWeights.accuracy = 1 := by
  refine ⟨?_, by norm_num [defaultWeights]⟩
  by_cases h : results = []
  · subst h
    norm_num [calculateGeoScore, zeroBreakdown]
  · have hne : results.isEmpty = false := by
      simpa [List.isEmpty_iff] using h
    simp only [calculateGeoScore, hne, Bool.false_eq_true, if_false]
    have hsom := somScore_bounds results h
    have hcit := citationScore_bounds results
    have hrank := rankingScore_bounds results
    have hacc := accuracyScore_bounds results
    have hsum0 : 0 ≤ defaultWeights.som * (buildBreakdown results).som_score
        + defaultWeights.citation * (buildBreakdown results).citation_score
        + defaultWeights.ranking * (buildBreakdown results).ranking_score
        + defaultWeights.accuracy * (buildBreakdown results).accuracy_score := by
      simp only [buildBreakdown, defaultWeights]
      have h1 := hsom.1
      have h2 := hcit.1
      have h3 := hrank.1
      have h4 := hacc.1
      linarith
    have hsum1 : defaultWeights.som * (buildBreakdown results).som_score
        + defaultWeights.citation * (buildBreakdown results).citation_score
        + defaultWeights.ranking * (buildBreakdown results).ranking_score
        + defaultWeights.accuracy * (buildBreakdown results).accuracy_score ≤ 100 := by
      simp only [buildBreakdown, defaultWeights]
      have h1 := hsom.2
      have h2 := hcit.2
      have h3 := hrank.2
      have h4 := hacc.2
      linarith
    unfold overallScore
    rw [clampScore_eq_self hsum0 hsum1]
    simp [defaultWeights]

/-- C4: the displayed overall score is clamped to [0,100]:
`normalizedScore` always lies in [0,100] and is the identity on inputs
already in that range. -/
theorem normalizedScore_clamps (s : ℚ) :
    0 ≤ normalizedScore s ∧ normalizedScore s ≤ 100 ∧
    (0 ≤ s → s ≤ 100 → normalizedScore s = s) := by
  unfold normalizedScore
  refine ⟨le_max_left _ _, max_le (by norm_num) (min_le_left _ _), ?_⟩
  intro h0 h1
  rw [min_eq_right h1, max_eq_right h0]

/-- Witness for C4, at the in-range input 55/2. -/
theorem normalizedScore_clamps_witness :
    0 ≤ normalizedScore (55 / 2) ∧ normalizedScore (55 / 2) ≤ 100 ∧
    normalizedScore (55 / 2) = 55 / 2 :=
  ⟨(normalizedScore_clamps (55 / 2)).1, (normalizedScore_clamps (55 / 2)).2.1,
    (normalizedScore_clamps (55 / 2)).2.2 (by norm_num) (by norm_num)⟩

/-- C5 counterexample: typing 21 comma-separated keywords submits all 21
entries — the form does not enforce the 20-entry upper bound. -/
theorem submittedKeywords_over_twenty :
    ¬ ((submittedKeywords
      "k1,k2,k3,k4,k5,k6,k7,k8,k9,k10,k11,k12,k13,k14,k15,k16,k17,k18,k19,k20,k21"
      "Xooer").length ≤ 20) := by
  decide

/-- C5 amended: every submitted request contains at least one keyword
entry (an input with no usable keyword falls back to the trimmed brand
name); no upper bound is enforced. -/
theorem submittedKeywords_at_least_one (keywords brand_name : String) :
    1 ≤ (submittedKeywords keywords brand_name).length := by
  unfold submittedKeywords
  split_ifs with h
  · omega
  · simp

/-- C10: every state of the core-product-keywords tag input reachable
from the initial empty state holds at most 3 keywords and no duplicates. -/
theorem tagInput_keywords_invariant (events : List TagEvent) :
    (tagRun events).keywords.length ≤ 3 ∧ (tagRun events).keywords.Nodup := by
  unfold tagRun
  exact tagRun_fold_preserves events tagInit (by simp [tagInit])

/-- C6: the create-audit form accepts a brand name exactly when its length
is between 1 and 100 characters. -/
theorem brandNameAccepted_iff (s : String) :
    brandNameAccepted s = true ↔ (1 ≤ s.length ∧ s.length ≤ 100) := by
  simp [brandNameAccepted]

/-- Witness for C6: a 5-character brand name is accepted and the empty
brand name is rejected. -/
theorem brandNameAccepted_iff_witness :
    brandNameAccepted "Xooer" = true ∧ brandNameAccepted "" = false :=
  ⟨(brandNameAccepted_iff "Xooer").mpr (by decide), by decide⟩

/-- C3 counterexample: the brand report page polls every 3000 ms, outside
the claimed 5-to-10-second interval. -/
theorem brandReportPollInterval_outside_recommended :
    ¬ (5000 ≤ brandReportPollIntervalMs ∧ brandReportPollIntervalMs ≤ 10000) := by
  decide

/-- C3 amended: both polling pages poll exactly while the status is
pending or running and stop at a terminal status; the audit detail page's
7-second interval lies within the recommended 5-to-10-second range, but
the brand report page polls every 3 seconds, below that range. -/
theorem pollingStopsAtTerminalStatus :
    (5000 ≤ auditDetailPollIntervalMs ∧ auditDetailPollIntervalMs ≤ 10000) ∧
    brandReportPollIntervalMs = 3000 ∧
    (∀ s : AuditStatus, auditDetailShouldPoll s = true ↔
      (s = AuditStatus.pending ∨ s = AuditStatus.running)) ∧
    (∀ s : AuditStatus, brandReportShouldPoll s = true ↔
      (s = AuditStatus.pending ∨ s = AuditStatus.running)) := by
  refine ⟨by decide, rfl, ?_, ?_⟩
  · intro s
    cases s <;> decide
  · intro s
    cases s <;> decide

/-- Witness for C3 (amended): a running audit keeps the detail page
polling and a pending audit keeps the report page polling. -/
theorem pollingStopsAtTerminalStatus_witness :
    auditDetailShouldPoll AuditStatus.running = true ∧
    brandReportShouldPoll AuditStatus.pending = true :=
  ⟨(pollingStopsAtTerminalStatus.2.2.1 AuditStatus.running).mpr (Or.inr rfl),
    (pollingStopsAtTerminalStatus.2.2.2 AuditStatus.pending).mpr (Or.inl rfl)⟩

/-- C7: a finished audit carries either a GeoScore (status completed) or
an explanatory error (status failed), never a completed status without a
score; and the audit detail page renders the score overview for a
completed audit with a score and the explicit no-score warning for a
completed audit without one. -/
theorem completedAudit_score_or_failure :
    (∀ (a : AuditResponse) (out : PipelineOutcome),
      ((finishAudit a out).status = AuditStatus.completed →
        ((finishAudit a out).geo_score).isSome = true) ∧
      ((finishAudit a out).status = AuditStatus.failed →
        ((finishAudit a out).error).isSome = true)) ∧
    (∀ b : AuditResponse, b.status = AuditStatus.completed →
      (∀ s : ℚ, b.geo_score = some s →
        scoreSection b = ScoreSection.overview s) ∧
      (b.geo_score = none → scoreSection b = ScoreSection.noScoreWarning)) := by
  constructor
  · intro a out
    cases out <;> simp [finishAudit]
  · intro b hb
    constructor
    · intro s hs
      simp [scoreSection, hb, hs]
    · intro hn
      simp [scoreSection, hb, hn]

/-- Witness for C7: a successful run yields a present score, a completed
audit with a score renders the overview, and a completed audit without
one renders the warning. -/
theorem completedAudit_score_or_failure_witness :
    ((finishAudit sampleFailedAudit
      (PipelineOutcome.success sampleGeoScore)).geo_score).isSome = true ∧
    scoreSection sampleCompletedAudit = ScoreSection.overview 50 ∧
    scoreSection sampleCompletedNoScoreAudit = ScoreSection.noScoreWarning :=
  ⟨(completedAudit_score_or_failure.1 sampleFailedAudit
      (PipelineOutcome.success sampleGeoScore)).1 rfl,
    (completedAudit_score_or_failure.2 sampleCompletedAudit rfl).1 50 rfl,
    (completedAudit_score_or_failure.2 sampleCompletedNoScoreAudit rfl).2 rfl⟩

/-- C8: `extractApiError` is total and always returns a non-empty message,
falling back to the default unknown-error message when no response data
and no Error message are available. -/
theorem extractApiError_nonempty_message (e : JsErrorValue) :
    (extractApiError e).message ≠ "" ∧
    ((e.hasResponseField = false ∨ e.response = none) →
      (e.isErrorInstance = false ∨ e.message = "") →
      (extractApiError e).message = "未知错误") := by
  obtain ⟨hrf, resp, isE, msg⟩ := e
  cases hrf with
  | false =>
    cases isE with
    | false =>
      refine ⟨by simp [extractApiError, extractApiErrorFallback], ?_⟩
      intro _ _
      simp [extractApiError, extractApiErrorFallback]
    | true =>
      refine ⟨?_, ?_⟩
      · have h := jsStringOr_ne (some msg) "未知错误" (by decide)
        simpa [extractApiError, extractApiErrorFallback] using h
      · intro _ h2
        rcases h2 with h2 | h2
        · exact absurd h2 (by simp)
        · subst h2
          simp [extractApiError, extractApiErrorFallback, jsStringOr]
  | true =>
    cases resp with
    | some r =>
      refine ⟨?_, ?_⟩
      · have h := jsStringOr_ne (r.data.map (fun d => d.err)) "请求失败"
          (by decide)
        simpa [extractApiError] using h
      · intro h1 _
        rcases h1 with h1 | h1
        · exact absurd h1 (by simp)
        · exact absurd h1 (by simp)
    | none =>
      cases isE with
      | false =>
        refine ⟨by simp [extractApiError, extractApiErrorFallback], ?_⟩
        intro _ _
        simp [extractApiError, extractApiErrorFallback]
      | true =>
        refine ⟨?_, ?_⟩
        · have h := jsStringOr_ne (some msg) "未知错误" (by decide)
          simpa [extractApiError, extractApiErrorFallback] using h
        · intro _ h2
          rcases h2 with h2 | h2
          · exact absurd h2 (by simp)
          · subst h2
            simp [extractApiError, extractApiErrorFallback, jsStringOr]

/-- Witness for C8: an input that is neither an Axios error nor an Error
instance yields the default unknown-error message, which is non-empty. -/
theorem extractApiError_nonempty_message_witness :
    (extractApiError ⟨false, none, false, ""⟩).message ≠ "" ∧
    (extractApiError ⟨false, none, false, ""⟩).message = "未知错误" :=
  ⟨(extractApiError_nonempty_message ⟨false, none, false, ""⟩).1,
    (extractApiError_nonempty_message ⟨false, none, false, ""⟩).2
      (Or.inl rfl) (Or.inl rfl)⟩

/-- C9: the audit-list status filter is the identity for the value `all`
and otherwise keeps exactly the audits whose status equals the filter. -/
theorem filteredAudits_filter_correct (audits : List AuditResponse)
    (f : StatusFilterVal) :
    (f = StatusFilterVal.all → filteredAudits audits f = audits) ∧
    (f ≠ StatusFilterVal.all →
      ∀ a : AuditResponse, a ∈ filteredAudits audits f ↔
        (a ∈ audits ∧ statusToFilterVal a.status = f)) := by
  constructor
  · intro h
    simp [filteredAudits, h]
  · intro h a
    simp [filteredAudits, h, List.mem_filter]

/-- Witness for C9: on a two-element list the filter is the identity for
`all`, and membership under the `completed` filter matches status. -/
theorem filteredAudits_filter_correct_witness :
    filteredAudits [sampleCompletedAudit, sampleFailedAudit]
        StatusFilterVal.all = [sampleCompletedAudit, sampleFailedAudit] ∧
    (sampleCompletedAudit ∈
        filteredAudits [sampleCompletedAudit, sampleFailedAudit]
          StatusFilterVal.completed ↔
      (sampleCompletedAudit ∈ [sampleCompletedAudit, sampleFailedAudit] ∧
        statusToFilterVal sampleCompletedAudit.status
          = StatusFilterVal.completed)) :=
  ⟨(filteredAudits_filter_correct _ _).1 rfl,
    (filteredAudits_filter_correct _ _).2 (by decide) sampleCompletedAudit⟩
